import Mathlib

/-!
Verification of the procedural shape-animation generator (`dataset.py`).

The embedding mirrors the source script: coordinates are rationals,
directions and shape kinds are the strings the script dispatches on, and
the two `round(random.uniform(a, b), 2)` draws performed by each placement
function are modelled by two sampler functions `u1 u2 : ℚ → ℚ → ℚ`
(first and second draw, in call order).  A sampler is "uniform-like"
(`Unif`) when it returns a value inside the interval it was given; this
absorbs Python rounding-to-2-decimals, which is monotone and fixes the
integer endpoints used by the script, hence maps each interval into
itself.  A Python branch that would raise (an unbound local such as the
`size` occurrence in the circle diagonal-quadrant-3 branch, or returning
names never assigned) is modelled as `none` / `Except.error`.
-/

namespace Dataset

/-- A sampler stands for `round(random.uniform(a, b), 2)`: it yields a value
inside the interval it is called with. -/
def Unif (u : ℚ → ℚ → ℚ) : Prop :=
  ∀ a b : ℚ, a ≤ b → a ≤ u a b ∧ u a b ≤ b

/-- `maxDistOver` from `dataset.py`: farthest over a shape can start without
leaving the board during the animation. -/
def maxDistOver : ℚ := 155

/-- Per-frame displacement used by every update closure in `dataset.py`:
`frame * ((speed / 100) * 2.0)`. -/
def disp (speed : ℚ) (frame : ℕ) : ℚ :=
  (frame : ℚ) * ((speed / 100) * 2)

/-- `setpositioncircle(direction, radius, diagonalDirection)` from
`dataset.py` lines 152-174.  `u1`, `u2` are the two uniform draws.  The
diagonal quadrant-3 branch evaluates `256 - size` with `size` an unbound
name (line 170), so that branch raises in Python: modelled as `none`.
Unknown directions (or unknown quadrants) fall through to the initial
`x, y = 0, 0`. -/
def setpositioncircle (direction : String) (radius : ℚ) (diagonalDirection : ℕ)
    (u1 u2 : ℚ → ℚ → ℚ) : Option (ℚ × ℚ) :=
  if direction = "right" then
    some (u1 radius (maxDistOver - radius), u2 radius (256 - radius))
  else if direction = "left" then
    some (u1 (256 - maxDistOver + radius) (256 - radius), u2 radius (256 - radius))
  else if direction = "up" then
    some (u1 radius (256 - radius), u2 radius (maxDistOver - radius))
  else if direction = "down" then
    some (u1 radius (256 - radius), u2 (256 - maxDistOver + radius) (256 - radius))
  else if direction = "diagonal" then
    if diagonalDirection = 1 then
      some (u1 radius (maxDistOver - radius), u2 radius (maxDistOver - radius))
    else if diagonalDirection = 2 then
      some (u1 radius (maxDistOver - radius), u2 (256 - maxDistOver + radius) (256 - radius))
    else if diagonalDirection = 3 then
      none
    else if diagonalDirection = 4 then
      some (u1 (256 - maxDistOver + radius) (256 - radius), u2 radius (maxDistOver - radius))
    else some (0, 0)
  else some (0, 0)

/-- The per-frame update closures `right/left/up/down/diagonal` defined in
`circle` (`dataset.py` lines 66-128), as one evaluator from the starting
center to the center at a frame.  Directions for which `circle` creates no
animation (and diagonal with an out-of-range quadrant, whose closure would
reference unbound `x`, `y`) yield `none`. -/
def circleFrame (direction : String) (x0 y0 speed : ℚ) (diagonalDirection : ℕ)
    (frame : ℕ) : Option (ℚ × ℚ) :=
  if direction = "right" then some (x0 + disp speed frame, y0)
  else if direction = "left" then some (x0 - disp speed frame, y0)
  else if direction = "up" then some (x0, y0 + disp speed frame)
  else if direction = "down" then some (x0, y0 - disp speed frame)
  else if direction = "diagonal" then
    if diagonalDirection = 1 then some (x0 + disp speed frame, y0 + disp speed frame)
    else if diagonalDirection = 2 then some (x0 + disp speed frame, y0 - disp speed frame)
    else if diagonalDirection = 3 then some (x0 - disp speed frame, y0 - disp speed frame)
    else if diagonalDirection = 4 then some (x0 - disp speed frame, y0 + disp speed frame)
    else none
  else none

/-- The six coordinates `(x1, y1, x2, y2, x3, y3)` of a triangle, in the
order `setpositiontriangle` returns them. -/
abbrev Tri := ℚ × ℚ × ℚ × ℚ × ℚ × ℚ

/-- `setpositiontriangle(direction, base, height, diagonalDirection)` from
`dataset.py` lines 309-347.  `u1`, `u2` are the two uniform draws.  For a
direction (or diagonal quadrant) with no branch, the function returns the
names `x1..y3` without ever assigning them, which raises in Python:
modelled as `none`. -/
def setpositiontriangle (direction : String) (base height : ℚ)
    (diagonalDirection : ℕ) (u1 u2 : ℚ → ℚ → ℚ) : Option Tri :=
  if direction = "right" then
    let x1 := u1 0 (maxDistOver - base); let y1 := u2 0 (256 - height)
    some (x1, y1, x1 + base, y1, x1 + base / 2, y1 + height)
  else if direction = "left" then
    let x2 := u1 (256 - maxDistOver + base) 256; let y2 := u2 0 (256 - height)
    some (x2 - base, y2, x2, y2, x2 - base + base / 2, y2 + height)
  else if direction = "up" then
    let x1 := u1 0 (256 - base); let y1 := u2 0 (maxDistOver - height)
    some (x1, y1, x1 + base, y1, x1 + base / 2, y1 + height)
  else if direction = "down" then
    let x1 := u1 0 (256 - base); let y1 := u2 (256 - maxDistOver) (256 - height)
    some (x1, y1, x1 + base, y1, x1 + base / 2, y1 + height)
  else if direction = "diagonal" then
    if diagonalDirection = 1 then
      let x1 := u1 0 (maxDistOver - base); let y1 := u2 0 (maxDistOver - height)
      some (x1, y1, x1 + base, y1, x1 + base / 2, y1 + height)
    else if diagonalDirection = 2 then
      let x1 := u1 0 (maxDistOver - base); let y1 := u2 (256 - maxDistOver) (256 - height)
      some (x1, y1, x1 + base, y1, x1 + base / 2, y1 + height)
    else if diagonalDirection = 3 then
      let x2 := u1 (256 - maxDistOver + base) 256; let y2 := u2 (256 - maxDistOver) (256 - height)
      some (x2 - base, y2, x2, y2, x2 - base + base / 2, y2 + height)
    else if diagonalDirection = 4 then
      let x2 := u1 (256 - maxDistOver + base) 256; let y2 := u2 0 (maxDistOver - height)
      some (x2 - base, y2, x2, y2, x2 - base + base / 2, y2 + height)
    else none
  else none

/-- The per-frame update closures `right/left/up/down/diagonal` defined in
`triangle` (`dataset.py` lines 189-285), as one evaluator from the starting
vertices to the vertices at a frame. -/
def triangleFrame (direction : String) (x1 y1 x2 y2 x3 y3 speed : ℚ)
    (diagonalDirection : ℕ) (frame : ℕ) : Option Tri :=
  let d := disp speed frame
  if direction = "right" then some (x1 + d, y1, x2 + d, y2, x3 + d, y3)
  else if direction = "left" then some (x1 - d, y1, x2 - d, y2, x3 - d, y3)
  else if direction = "up" then some (x1, y1 + d, x2, y2 + d, x3, y3 + d)
  else if direction = "down" then some (x1, y1 - d, x2, y2 - d, x3, y3 - d)
  else if direction = "diagonal" then
    if diagonalDirection = 1 then some (x1 + d, y1 + d, x2 + d, y2 + d, x3 + d, y3 + d)
    else if diagonalDirection = 2 then some (x1 + d, y1 - d, x2 + d, y2 - d, x3 + d, y3 - d)
    else if diagonalDirection = 3 then some (x1 - d, y1 - d, x2 - d, y2 - d, x3 - d, y3 - d)
    else if diagonalDirection = 4 then some (x1 - d, y1 + d, x2 - d, y2 + d, x3 - d, y3 + d)
    else none
  else none

/-- A point is on the 256 × 256 canvas. -/
def inCanvas (p : ℚ × ℚ) : Prop :=
  0 ≤ p.1 ∧ p.1 ≤ 256 ∧ 0 ≤ p.2 ∧ p.2 ≤ 256

/-- All three vertices of a triangle pose are on the canvas. -/
def triInCanvas (t : Tri) : Prop :=
  inCanvas (t.1, t.2.1) ∧ inCanvas (t.2.2.1, t.2.2.2.1) ∧
    inCanvas (t.2.2.2.2.1, t.2.2.2.2.2)

/-- Modelled from the spec: the displacement vector at a frame is
`f × (speed/100) × 2.0` canvas-units along the axis/axes implied by the
direction, both axes for `diagonal` with signs given by the quadrant.
This is the spec-side formula, to be compared with the update closures of
the source. -/
def specDisplacement (direction : String) (diagonalDirection : ℕ)
    (speed : ℚ) (frame : ℕ) : Option (ℚ × ℚ) :=
  let d := disp speed frame
  if direction = "right" then some (d, 0)
  else if direction = "left" then some (-d, 0)
  else if direction = "up" then some (0, d)
  else if direction = "down" then some (0, -d)
  else if direction = "diagonal" then
    if diagonalDirection = 1 then some (d, d)
    else if diagonalDirection = 2 then some (d, -d)
    else if diagonalDirection = 3 then some (-d, -d)
    else if diagonalDirection = 4 then some (-d, d)
    else none
  else none

/-- CLI choices for the positional `shape` argument (`dataset.py` line 27). -/
def shapeChoices : List String := ["circle", "rectangle", "triangle"]

/-- CLI choices for `--direction` (`dataset.py` line 45): six values,
including `bouncy`. -/
def directionChoices : List String :=
  ["right", "left", "up", "down", "diagonal", "bouncy"]

/-- The five direction values the spec documents and the runtime animates. -/
def specDirections : List String := ["right", "left", "up", "down", "diagonal"]

/-- Values the caller supplies on the command line; `none` means the option
was omitted (so its default is used, unvalidated). -/
structure CliInput where
  shape : String
  radius : Option ℤ
  rectwidth : Option ℤ
  rectheight : Option ℤ
  base : Option ℤ
  triheight : Option ℤ
  direction : Option String
  speed : Option ℤ

/-- Validation of one optional integer argument against its
`choices=range(lo, hi+1)` list: supplied values must lie in the range,
omitted options pass. -/
def rangeOk (o : Option ℤ) (lo hi : ℤ) : Bool :=
  match o with
  | none => true
  | some v => decide (lo ≤ v ∧ v ≤ hi)

/-- Validation of the optional `--direction` argument against its choices
list. -/
def directionOk (o : Option String) : Bool :=
  match o with
  | none => true
  | some d => decide (d ∈ directionChoices)

/-- Validation `argparse` performs on the arguments of `dataset.py`
(lines 23-50), before `main` runs: each supplied value must lie in its
`choices`. -/
def parserAccepts (c : CliInput) : Bool :=
  decide (c.shape ∈ shapeChoices)
    && rangeOk c.radius 10 77
    && rangeOk c.rectwidth 10 75
    && rangeOk c.rectheight 10 75
    && rangeOk c.base 10 75
    && rangeOk c.triheight 10 75
    && directionOk c.direction
    && rangeOk c.speed 20 100

/-- Decimal digit characters of `n`, most significant first, as Python
`str` renders a nonnegative int. -/
def natChars (n : ℕ) : List Char :=
  if n = 0 then ['0'] else ((Nat.digits 10 n).map Nat.digitChar).reverse

/-- Python `f"\x7bi:03\x7d"`: left-pad the decimal form with zeros to
width 3. -/
def pad3 (n : ℕ) : List Char :=
  List.replicate (3 - (natChars n).length) '0' ++ natChars n

/-- Join fields with the dash separator, as the f-strings of `dataset.py`
lay the file names out. -/
def dashJoin : List (List Char) → List Char
  | [] => []
  | [x] => x
  | x :: xs => x ++ '-' :: dashJoin xs

/-- Size parameters of the two shape kinds the script animates. -/
inductive ShapeParams
  | circle (radius : ℕ)
  | triangle (base height : ℕ)
deriving DecidableEq

/-- Shape-code field of the file name: `c` or `t`. -/
def shapeCode : ShapeParams → List Char
  | .circle _ => ['c']
  | .triangle _ _ => ['t']

/-- Size field of the file name: `r(radius)` for a circle,
`b(base)h(height)` for a triangle. -/
def sizeChars : ShapeParams → List Char
  | .circle radius => 'r' :: natChars radius
  | .triangle base height => 'b' :: (natChars base ++ 'h' :: natChars height)

/-- Direction-code field used by the save branches of `circle` and
`triangle`: `r`, `l`, `u`, `dwn`, `diag`; `none` for any other direction,
for which no animation is saved. -/
def dirCode (direction : String) : Option (List Char) :=
  if direction = "right" then some ['r']
  else if direction = "left" then some ['l']
  else if direction = "up" then some ['u']
  else if direction = "down" then some ['d', 'w', 'n']
  else if direction = "diagonal" then some ['d', 'i', 'a', 'g']
  else none

/-- File name (without the output-directory prefix) that one run saves:
`(index, zero-padded to 3)-(shape code)-(size params)-(direction
code)-(speed).gif`, from the `ani.save` calls of `dataset.py` lines
131-145 and 288-302. -/
def gifName (i : ℕ) (s : ShapeParams) (direction : String) (speed : ℕ) :
    Option String :=
  match dirCode direction with
  | none => none
  | some dc => some (String.mk (dashJoin
      [pad3 i, shapeCode s, sizeChars s, dc,
        natChars speed ++ ['.', 'g', 'i', 'f']]))

/-- Numeric value of a decimal digit character. -/
def charVal (c : Char) : ℕ := c.toNat - 48

/-- Read a digit string back as a number (decimal, most significant
first); the decoding side of the filename round-trip. -/
def chars2nat (l : List Char) : ℕ :=
  l.foldl (fun acc c => 10 * acc + charVal c) 0

/-- The ten decimal digit characters. -/
def digitList : List Char :=
  ['0', '1', '2', '3', '4', '5', '6', '7', '8', '9']

/-- Command-line values `main` receives after parsing (`dataset.py` lines
23-50): sizes and speed default to the sentinel 0 meaning "randomize",
`direction` defaults to `None`. -/
structure Args where
  shape : Option String
  radius : ℕ
  rectwidth : ℕ
  rectheight : ℕ
  base : ℕ
  triheight : ℕ
  direction : Option String
  speed : ℕ

/-- Random draws one loop iteration of `main` may consume (`dataset.py`
lines 404-441): the `random.choice` / `random.randint` results and the two
uniform draws of the placement call. -/
structure Rand where
  direction : String
  radius : ℕ
  base : ℕ
  triheight : ℕ
  rectWidth : ℕ
  rectHeight : ℕ
  speed : ℕ
  diagonalDirection : ℕ
  shape : String
  u1 : ℚ → ℚ → ℚ
  u2 : ℚ → ℚ → ℚ

/-- One run of the `circle` function (`dataset.py` lines 52-150): place the
circle (propagating a placement error), then save exactly one GIF for the
five animated directions and nothing otherwise. Returns the saved file
names. -/
def circleRun (direction : String) (radius speed i dd : ℕ)
    (u1 u2 : ℚ → ℚ → ℚ) : Except Unit (List String) :=
  match setpositioncircle direction (radius : ℚ) dd u1 u2 with
  | none => .error ()
  | some _ =>
    match gifName i (.circle radius) direction speed with
    | some nm => .ok [nm]
    | none => .ok []

/-- One run of the `triangle` function (`dataset.py` lines 176-307),
analogous to `circleRun`. -/
def triangleRun (direction : String) (base height speed i dd : ℕ)
    (u1 u2 : ℚ → ℚ → ℚ) : Except Unit (List String) :=
  match setpositiontriangle direction (base : ℚ) (height : ℚ) dd u1 u2 with
  | none => .error ()
  | some _ =>
    match gifName i (.triangle base height) direction speed with
    | some nm => .ok [nm]
    | none => .ok []

/-- One iteration of the loop in `main` (`dataset.py` lines 384-446).
Locals such as `radius` are assigned only when the corresponding argument
still holds its randomize sentinel (0, or `None` for `--direction`);
otherwise the later use of the unbound name raises, modelled as
`Except.error`.  `main` has no branch for the `rectangle` shape, so such a
run completes having saved nothing. -/
def runIteration (args : Args) (r : Rand) (i : ℕ) : Except Unit (List String) :=
  let direction? : Option String :=
    match args.direction with | none => some r.direction | some _ => none
  let radius? : Option ℕ := if args.radius = 0 then some r.radius else none
  let base? : Option ℕ := if args.base = 0 then some r.base else none
  let triheight? : Option ℕ := if args.triheight = 0 then some r.triheight else none
  let speed? : Option ℕ := if args.speed = 0 then some r.speed else none
  let shape : String := match args.shape with | none => r.shape | some s => s
  if shape = "circle" then
    match direction? with
    | none => .error ()
    | some d =>
      match radius? with
      | none => .error ()
      | some rad =>
        match speed? with
        | none => .error ()
        | some sp => circleRun d rad sp i r.diagonalDirection r.u1 r.u2
  else if shape = "triangle" then
    match direction? with
    | none => .error ()
    | some d =>
      match base? with
      | none => .error ()
      | some b =>
        match triheight? with
        | none => .error ()
        | some h =>
          match speed? with
          | none => .error ()
          | some sp => triangleRun d b h sp i r.diagonalDirection r.u1 r.u2
  else .ok []

theorem disp_nonneg {speed : ℚ} (h : 0 ≤ speed) (frame : ℕ) :
    0 ≤ disp speed frame := by
  unfold disp
  have h0 : (0 : ℚ) ≤ (frame : ℚ) := Nat.cast_nonneg frame
  have h1 : (0 : ℚ) ≤ (speed / 100) * 2 := by positivity
  exact mul_nonneg h0 h1

theorem disp_le_98 {speed : ℚ} {frame : ℕ} (h2 : speed ≤ 100)
    (h0 : 0 ≤ speed) (hf : frame ≤ 49) : disp speed frame ≤ 98 := by
  unfold disp
  have hfq : (frame : ℚ) ≤ 49 := by exact_mod_cast hf
  have hd : (speed / 100) * 2 ≤ 2 := by linarith
  have hdn : (0 : ℚ) ≤ (speed / 100) * 2 := by positivity
  have := mul_le_mul hfq hd hdn (by norm_num : (0 : ℚ) ≤ 49)
  linarith

end Dataset

namespace Dataset

/-- C3: the Placement Solver is not total on its documented domain: for a
circle moving diagonally down-and-left (quadrant 3), `setpositioncircle`
evaluates `256 - size` with `size` an unbound name (`dataset.py` line 170)
and raises, producing no starting pose, for every radius and every
sampler. -/
theorem setpositioncircle_diag3_fails (radius : ℚ) (u1 u2 : ℚ → ℚ → ℚ) :
    setpositioncircle "diagonal" radius 3 u1 u2 = none := by
  simp [setpositioncircle]

set_option maxHeartbeats 1000000 in
/-- C4: the update closures of `circle` and `triangle` realise exactly the
spec displacement formula: the pose at frame `f` is the starting pose
translated by `f × (speed/100) × 2.0` along the axis/axes implied by the
direction (both axes for diagonal, signed by the quadrant), the same
vector on all three triangle vertices; in particular, for the spec
scenario (diagonal quadrant 3 = down-left, speed 50, frame 10) the
displacement is `(-10, -10)`. -/
theorem frame_eq_start_add_specDisplacement
    (direction : String) (dd : ℕ) (x0 y0 x1 y1 x2 y2 x3 y3 speed : ℚ)
    (frame : ℕ) :
    circleFrame direction x0 y0 speed dd frame
      = Option.map (fun w => (x0 + w.1, y0 + w.2))
          (specDisplacement direction dd speed frame)
    ∧ triangleFrame direction x1 y1 x2 y2 x3 y3 speed dd frame
      = Option.map (fun w =>
            (x1 + w.1, y1 + w.2, x2 + w.1, y2 + w.2, x3 + w.1, y3 + w.2))
          (specDisplacement direction dd speed frame)
    ∧ specDisplacement "diagonal" 3 50 10 = some (-10, -10) := by
  refine ⟨?_, ?_, ?_⟩
  · unfold circleFrame specDisplacement
    split_ifs <;> simp [sub_eq_add_neg]
  · unfold triangleFrame specDisplacement
    split_ifs <;> simp [sub_eq_add_neg]
  · simp +decide only [specDisplacement, disp]
    norm_num

set_option maxHeartbeats 1000000 in
/-- C5: evaluating the trajectory at frame index 0 returns exactly the
starting pose the placement functions produced, for every direction,
quadrant and shape kind. -/
theorem frame_zero_eq_start
    (direction : String) (dd : ℕ) (radius base height speed : ℚ)
    (u1 u2 : ℚ → ℚ → ℚ) :
    (∀ x0 y0 p, setpositioncircle direction radius dd u1 u2 = some (x0, y0) →
      circleFrame direction x0 y0 speed dd 0 = some p → p = (x0, y0))
    ∧ (∀ x1 y1 x2 y2 x3 y3 t,
        setpositiontriangle direction base height dd u1 u2
          = some (x1, y1, x2, y2, x3, y3) →
        triangleFrame direction x1 y1 x2 y2 x3 y3 speed dd 0 = some t →
        t = (x1, y1, x2, y2, x3, y3)) := by
  constructor
  · intro x0 y0 p _ hframe
    unfold circleFrame at hframe
    split_ifs at hframe <;> simp_all [disp]
  · intro x1 y1 x2 y2 x3 y3 t _ hframe
    unfold triangleFrame at hframe
    split_ifs at hframe <;> simp_all [disp]

/-- C5 witness: a concrete circle run moving right and a concrete triangle
run moving right, with samplers returning the lower endpoint. -/
theorem frame_zero_eq_start_witness :
    (((20 : ℚ), (20 : ℚ)) : ℚ × ℚ) = ((20 : ℚ), (20 : ℚ))
    ∧ ((((0 : ℚ), (0 : ℚ), (30 : ℚ), (0 : ℚ), (15 : ℚ), (40 : ℚ))) : Tri)
        = ((0 : ℚ), (0 : ℚ), (30 : ℚ), (0 : ℚ), (15 : ℚ), (40 : ℚ)) := by
  constructor
  · exact (frame_zero_eq_start "right" 1 20 30 40 50
      (fun a _ => a) (fun a _ => a)).1 20 20 (20, 20) (by norm_num [setpositioncircle, maxDistOver])
      (by norm_num [circleFrame, disp])
  · exact (frame_zero_eq_start "right" 1 20 30 40 50
      (fun a _ => a) (fun a _ => a)).2 0 0 30 0 15 40 (0, 0, 30, 0, 15, 40)
      (by norm_num [setpositiontriangle, maxDistOver])
      (by norm_num [triangleFrame, disp])

set_option maxHeartbeats 2000000 in
/-- C1: for every valid shape size, direction, diagonal quadrant, speed in
`[20, 100]` and frame index at most 49, every pose the placement functions
produce stays inside the 256 × 256 canvas on every axis of every vertex
when the per-frame update is applied. -/
theorem trajectory_in_canvas
    (u1 u2 : ℚ → ℚ → ℚ) (hu1 : Unif u1) (hu2 : Unif u2)
    (direction : String) (dd : ℕ) (radius base height speed : ℚ) (f : ℕ)
    (hr1 : 10 ≤ radius) (hr2 : radius ≤ 77)
    (hb1 : 10 ≤ base) (hb2 : base ≤ 75)
    (hh1 : 10 ≤ height) (hh2 : height ≤ 75)
    (hs1 : 20 ≤ speed) (hs2 : speed ≤ 100) (hf : f ≤ 49) :
    (∀ x0 y0 p, setpositioncircle direction radius dd u1 u2 = some (x0, y0) →
      circleFrame direction x0 y0 speed dd f = some p → inCanvas p)
    ∧ (∀ x1 y1 x2 y2 x3 y3 t,
        setpositiontriangle direction base height dd u1 u2
          = some (x1, y1, x2, y2, x3, y3) →
        triangleFrame direction x1 y1 x2 y2 x3 y3 speed dd f = some t →
        triInCanvas t) := by
  have hd0 : 0 ≤ disp speed f := disp_nonneg (by linarith) f
  have hd98 : disp speed f ≤ 98 := disp_le_98 hs2 (by linarith) hf
  constructor
  · intro x0 y0 p hset hframe
    unfold setpositioncircle maxDistOver at hset
    unfold circleFrame at hframe
    split_ifs at hset hframe
    -- right
    · rw [Option.some.injEq, Prod.mk.injEq] at hset
      obtain ⟨hx, hy⟩ := hset
      rw [Option.some.injEq] at hframe
      subst hframe
      obtain ⟨ha1, ha2⟩ := hu1 radius (155 - radius) (by linarith)
      obtain ⟨hb1', hb2'⟩ := hu2 radius (256 - radius) (by linarith)
      rw [hx] at ha1 ha2; rw [hy] at hb1' hb2'
      dsimp only [inCanvas]
      exact ⟨by linarith, by linarith, by linarith, by linarith⟩
    -- left
    · rw [Option.some.injEq, Prod.mk.injEq] at hset
      obtain ⟨hx, hy⟩ := hset
      rw [Option.some.injEq] at hframe
      subst hframe
      obtain ⟨ha1, ha2⟩ := hu1 (256 - 155 + radius) (256 - radius) (by linarith)
      obtain ⟨hb1', hb2'⟩ := hu2 radius (256 - radius) (by linarith)
      rw [hx] at ha1 ha2; rw [hy] at hb1' hb2'
      dsimp only [inCanvas]
      exact ⟨by linarith, by linarith, by linarith, by linarith⟩
    -- up
    · rw [Option.some.injEq, Prod.mk.injEq] at hset
      obtain ⟨hx, hy⟩ := hset
      rw [Option.some.injEq] at hframe
      subst hframe
      obtain ⟨ha1, ha2⟩ := hu1 radius (256 - radius) (by linarith)
      obtain ⟨hb1', hb2'⟩ := hu2 radius (155 - radius) (by linarith)
      rw [hx] at ha1 ha2; rw [hy] at hb1' hb2'
      dsimp only [inCanvas]
      exact ⟨by linarith, by linarith, by linarith, by linarith⟩
    -- down
    · rw [Option.some.injEq, Prod.mk.injEq] at hset
      obtain ⟨hx, hy⟩ := hset
      rw [Option.some.injEq] at hframe
      subst hframe
      obtain ⟨ha1, ha2⟩ := hu1 radius (256 - radius) (by linarith)
      obtain ⟨hb1', hb2'⟩ := hu2 (256 - 155 + radius) (256 - radius) (by linarith)
      rw [hx] at ha1 ha2; rw [hy] at hb1' hb2'
      dsimp only [inCanvas]
      exact ⟨by linarith, by linarith, by linarith, by linarith⟩
    -- diagonal, quadrant 1
    · rw [Option.some.injEq, Prod.mk.injEq] at hset
      obtain ⟨hx, hy⟩ := hset
      rw [Option.some.injEq] at hframe
      subst hframe
      obtain ⟨ha1, ha2⟩ := hu1 radius (155 - radius) (by linarith)
      obtain ⟨hb1', hb2'⟩ := hu2 radius (155 - radius) (by linarith)
      rw [hx] at ha1 ha2; rw [hy] at hb1' hb2'
      dsimp only [inCanvas]
      exact ⟨by linarith, by linarith, by linarith, by linarith⟩
    -- diagonal, quadrant 2
    · rw [Option.some.injEq, Prod.mk.injEq] at hset
      obtain ⟨hx, hy⟩ := hset
      rw [Option.some.injEq] at hframe
      subst hframe
      obtain ⟨ha1, ha2⟩ := hu1 radius (155 - radius) (by linarith)
      obtain ⟨hb1', hb2'⟩ := hu2 (256 - 155 + radius) (256 - radius) (by linarith)
      rw [hx] at ha1 ha2; rw [hy] at hb1' hb2'
      dsimp only [inCanvas]
      exact ⟨by linarith, by linarith, by linarith, by linarith⟩
    -- diagonal, quadrant 4 (quadrant 3 is closed by split_ifs: no pose)
    · rw [Option.some.injEq, Prod.mk.injEq] at hset
      obtain ⟨hx, hy⟩ := hset
      rw [Option.some.injEq] at hframe
      subst hframe
      obtain ⟨ha1, ha2⟩ := hu1 (256 - 155 + radius) (256 - radius) (by linarith)
      obtain ⟨hb1', hb2'⟩ := hu2 radius (155 - radius) (by linarith)
      rw [hx] at ha1 ha2; rw [hy] at hb1' hb2'
      dsimp only [inCanvas]
      exact ⟨by linarith, by linarith, by linarith, by linarith⟩
  · intro x1 y1 x2 y2 x3 y3 t hset hframe
    unfold setpositiontriangle maxDistOver at hset
    unfold triangleFrame at hframe
    split_ifs at hset hframe
    -- right
    · rw [Option.some.injEq, Prod.mk.injEq, Prod.mk.injEq, Prod.mk.injEq,
        Prod.mk.injEq, Prod.mk.injEq] at hset
      obtain ⟨h1, h2, h3, h4, h5, h6⟩ := hset
      rw [Option.some.injEq] at hframe
      subst hframe
      obtain ⟨ha1, ha2⟩ := hu1 0 (155 - base) (by linarith)
      obtain ⟨hc1, hc2⟩ := hu2 0 (256 - height) (by linarith)
      rw [h1] at h3 h5 ha1 ha2; rw [h2] at h4 h6 hc1 hc2
      dsimp only [triInCanvas, inCanvas]
      exact ⟨⟨by linarith, by linarith, by linarith, by linarith⟩,
        ⟨by linarith, by linarith, by linarith, by linarith⟩,
        ⟨by linarith, by linarith, by linarith, by linarith⟩⟩
    -- left
    · rw [Option.some.injEq, Prod.mk.injEq, Prod.mk.injEq, Prod.mk.injEq,
        Prod.mk.injEq, Prod.mk.injEq] at hset
      obtain ⟨h1, h2, h3, h4, h5, h6⟩ := hset
      rw [Option.some.injEq] at hframe
      subst hframe
      obtain ⟨ha1, ha2⟩ := hu1 (256 - 155 + base) 256 (by linarith)
      obtain ⟨hc1, hc2⟩ := hu2 0 (256 - height) (by linarith)
      rw [h3] at h1 h5 ha1 ha2; rw [h4] at h2 h6 hc1 hc2
      dsimp only [triInCanvas, inCanvas]
      exact ⟨⟨by linarith, by linarith, by linarith, by linarith⟩,
        ⟨by linarith, by linarith, by linarith, by linarith⟩,
        ⟨by linarith, by linarith, by linarith, by linarith⟩⟩
    -- up
    · rw [Option.some.injEq, Prod.mk.injEq, Prod.mk.injEq, Prod.mk.injEq,
        Prod.mk.injEq, Prod.mk.injEq] at hset
      obtain ⟨h1, h2, h3, h4, h5, h6⟩ := hset
      rw [Option.some.injEq] at hframe
      subst hframe
      obtain ⟨ha1, ha2⟩ := hu1 0 (256 - base) (by linarith)
      obtain ⟨hc1, hc2⟩ := hu2 0 (155 - height) (by linarith)
      rw [h1] at h3 h5 ha1 ha2; rw [h2] at h4 h6 hc1 hc2
      dsimp only [triInCanvas, inCanvas]
      exact ⟨⟨by linarith, by linarith, by linarith, by linarith⟩,
        ⟨by linarith, by linarith, by linarith, by linarith⟩,
        ⟨by linarith, by linarith, by linarith, by linarith⟩⟩
    -- down
    · rw [Option.some.injEq, Prod.mk.injEq, Prod.mk.injEq, Prod.mk.injEq,
        Prod.mk.injEq, Prod.mk.injEq] at hset
      obtain ⟨h1, h2, h3, h4, h5, h6⟩ := hset
      rw [Option.some.injEq] at hframe
      subst hframe
      obtain ⟨ha1, ha2⟩ := hu1 0 (256 - base) (by linarith)
      obtain ⟨hc1, hc2⟩ := hu2 (256 - 155) (256 - height) (by linarith)
      rw [h1] at h3 h5 ha1 ha2; rw [h2] at h4 h6 hc1 hc2
      dsimp only [triInCanvas, inCanvas]
      exact ⟨⟨by linarith, by linarith, by linarith, by linarith⟩,
        ⟨by linarith, by linarith, by linarith, by linarith⟩,
        ⟨by linarith, by linarith, by linarith, by linarith⟩⟩
    -- diagonal, quadrant 1
    · rw [Option.some.injEq, Prod.mk.injEq, Prod.mk.injEq, Prod.mk.injEq,
        Prod.mk.injEq, Prod.mk.injEq] at hset
      obtain ⟨h1, h2, h3, h4, h5, h6⟩ := hset
      rw [Option.some.injEq] at hframe
      subst hframe
      obtain ⟨ha1, ha2⟩ := hu1 0 (155 - base) (by linarith)
      obtain ⟨hc1, hc2⟩ := hu2 0 (155 - height) (by linarith)
      rw [h1] at h3 h5 ha1 ha2; rw [h2] at h4 h6 hc1 hc2
      dsimp only [triInCanvas, inCanvas]
      exact ⟨⟨by linarith, by linarith, by linarith, by linarith⟩,
        ⟨by linarith, by linarith, by linarith, by linarith⟩,
        ⟨by linarith, by linarith, by linarith, by linarith⟩⟩
    -- diagonal, quadrant 2
    · rw [Option.some.injEq, Prod.mk.injEq, Prod.mk.injEq, Prod.mk.injEq,
        Prod.mk.injEq, Prod.mk.injEq] at hset
      obtain ⟨h1, h2, h3, h4, h5, h6⟩ := hset
      rw [Option.some.injEq] at hframe
      subst hframe
      obtain ⟨ha1, ha2⟩ := hu1 0 (155 - base) (by linarith)
      obtain ⟨hc1, hc2⟩ := hu2 (256 - 155) (256 - height) (by linarith)
      rw [h1] at h3 h5 ha1 ha2; rw [h2] at h4 h6 hc1 hc2
      dsimp only [triInCanvas, inCanvas]
      exact ⟨⟨by linarith, by linarith, by linarith, by linarith⟩,
        ⟨by linarith, by linarith, by linarith, by linarith⟩,
        ⟨by linarith, by linarith, by linarith, by linarith⟩⟩
    -- diagonal, quadrant 3
    · rw [Option.some.injEq, Prod.mk.injEq, Prod.mk.injEq, Prod.mk.injEq,
        Prod.mk.injEq, Prod.mk.injEq] at hset
      obtain ⟨h1, h2, h3, h4, h5, h6⟩ := hset
      rw [Option.some.injEq] at hframe
      subst hframe
      obtain ⟨ha1, ha2⟩ := hu1 (256 - 155 + base) 256 (by linarith)
      obtain ⟨hc1, hc2⟩ := hu2 (256 - 155) (256 - height) (by linarith)
      rw [h3] at h1 h5 ha1 ha2; rw [h4] at h2 h6 hc1 hc2
      dsimp only [triInCanvas, inCanvas]
      exact ⟨⟨by linarith, by linarith, by linarith, by linarith⟩,
        ⟨by linarith, by linarith, by linarith, by linarith⟩,
        ⟨by linarith, by linarith, by linarith, by linarith⟩⟩
    -- diagonal, quadrant 4
    · rw [Option.some.injEq, Prod.mk.injEq, Prod.mk.injEq, Prod.mk.injEq,
        Prod.mk.injEq, Prod.mk.injEq] at hset
      obtain ⟨h1, h2, h3, h4, h5, h6⟩ := hset
      rw [Option.some.injEq] at hframe
      subst hframe
      obtain ⟨ha1, ha2⟩ := hu1 (256 - 155 + base) 256 (by linarith)
      obtain ⟨hc1, hc2⟩ := hu2 0 (155 - height) (by linarith)
      rw [h3] at h1 h5 ha1 ha2; rw [h4] at h2 h6 hc1 hc2
      dsimp only [triInCanvas, inCanvas]
      exact ⟨⟨by linarith, by linarith, by linarith, by linarith⟩,
        ⟨by linarith, by linarith, by linarith, by linarith⟩,
        ⟨by linarith, by linarith, by linarith, by linarith⟩⟩

/-- C1 witness: a concrete circle run (radius 20, right, speed 50, frame 10)
and a concrete triangle run (base 30, height 40, right, speed 50, frame 10)
with lower-endpoint samplers. -/
theorem trajectory_in_canvas_witness :
    inCanvas (30, 20) ∧ triInCanvas (10, 0, 40, 0, 25, 40) := by
  have h := trajectory_in_canvas (fun a _ => a) (fun a _ => a)
    (fun a b hab => ⟨le_refl a, hab⟩) (fun a b hab => ⟨le_refl a, hab⟩)
    "right" 1 20 30 40 50 10
    (by norm_num) (by norm_num) (by norm_num) (by norm_num) (by norm_num)
    (by norm_num) (by norm_num) (by norm_num) (by norm_num)
  constructor
  · exact h.1 20 20 (30, 20)
      (by norm_num [setpositioncircle, maxDistOver])
      (by norm_num [circleFrame, disp])
  · exact h.2 0 0 30 0 15 40 (10, 0, 40, 0, 25, 40)
      (by norm_num [setpositiontriangle, maxDistOver])
      (by norm_num [triangleFrame, disp])

/-- C6 counterexample: the Placement Solver can start a radius-20 circle
moving right at `x0 = 135` (the upper endpoint of its draw interval
`[20, 135]`), and at frame 49 with speed 100 the center is at `x = 233`,
which exceeds 155 — the claimed bound `x ≤ 155` is false. -/
theorem circle_right_frame49_exceeds_155 :
    setpositioncircle "right" 20 1 (fun _ b => b) (fun a _ => a)
        = some (135, 20)
    ∧ circleFrame "right" 135 20 100 1 49 = some (233, 20)
    ∧ ¬((233 : ℚ) ≤ 155) := by
  refine ⟨by norm_num [setpositioncircle, maxDistOver], ?_, by norm_num⟩
  norm_num [circleFrame, disp]

/-- C6 amended: for a radius-20 circle moving right at speed 100, frame 49
displaces the start by exactly 98 units along `+x` and 0 along `y`; the
start always has `x0 ≥ 20`, so the resulting `x` lies in `[118, 233]`
(on-canvas), not below 155 as the spec scenario stated. -/
theorem circle_right_frame49_displacement
    (u1 u2 : ℚ → ℚ → ℚ) (hu1 : Unif u1) (_hu2 : Unif u2) (dd : ℕ)
    (x0 y0 : ℚ) (p : ℚ × ℚ)
    (hset : setpositioncircle "right" 20 dd u1 u2 = some (x0, y0))
    (hframe : circleFrame "right" x0 y0 100 dd 49 = some p) :
    p = (x0 + 98, y0) ∧ 20 ≤ x0 ∧ x0 + 98 ≤ 233 := by
  simp only [setpositioncircle, maxDistOver, if_pos, Option.some.injEq,
    Prod.mk.injEq, reduceIte] at hset
  obtain ⟨hx, hy⟩ := hset
  simp only [circleFrame, Option.some.injEq, reduceIte] at hframe
  obtain ⟨ha1, ha2⟩ := hu1 20 (155 - 20) (by norm_num)
  rw [hx] at ha1 ha2
  subst hframe
  refine ⟨?_, by linarith, by linarith⟩
  norm_num [disp]

/-- C6 amended witness: the concrete run of the counterexample, where the
starting pose is `(135, 20)` and the frame-49 pose `(233, 20)`. -/
theorem circle_right_frame49_displacement_witness :
    ((233 : ℚ), (20 : ℚ)) = ((135 : ℚ) + 98, (20 : ℚ))
    ∧ (20 : ℚ) ≤ 135 ∧ (135 : ℚ) + 98 ≤ 233 := by
  exact circle_right_frame49_displacement (fun _ b => b) (fun a _ => a)
    (fun a b hab => ⟨hab, le_refl b⟩) (fun a b hab => ⟨le_refl a, hab⟩) 1
    135 20 (233, 20)
    (by norm_num [setpositioncircle, maxDistOver])
    (by norm_num [circleFrame, disp])

set_option maxHeartbeats 2000000 in
/-- C10: every triangle pose the Placement Solver produces satisfies
`x2 = x1 + base`, `y2 = y1`, `x3 = x1 + base/2`, `y3 = y1 + height`, and
the per-frame update (any direction, any quadrant, any speed, any frame)
preserves these relations: the triangle stays an isosceles triangle with
a horizontal base, rigidly translated. -/
theorem triangle_shape_invariant
    (direction : String) (base height : ℚ) (dd : ℕ) (u1 u2 : ℚ → ℚ → ℚ)
    (x1 y1 x2 y2 x3 y3 : ℚ)
    (hset : setpositiontriangle direction base height dd u1 u2
      = some (x1, y1, x2, y2, x3, y3)) :
    (x2 = x1 + base ∧ y2 = y1 ∧ x3 = x1 + base / 2 ∧ y3 = y1 + height)
    ∧ ∀ (speed : ℚ) (f : ℕ) (t : Tri),
        triangleFrame direction x1 y1 x2 y2 x3 y3 speed dd f = some t →
        t.2.2.1 = t.1 + base ∧ t.2.2.2.1 = t.2.1
          ∧ t.2.2.2.2.1 = t.1 + base / 2 ∧ t.2.2.2.2.2 = t.2.1 + height := by
  have hrel : x2 = x1 + base ∧ y2 = y1 ∧ x3 = x1 + base / 2
      ∧ y3 = y1 + height := by
    unfold setpositiontriangle at hset
    split_ifs at hset <;>
      · rw [Option.some.injEq, Prod.mk.injEq, Prod.mk.injEq, Prod.mk.injEq,
          Prod.mk.injEq, Prod.mk.injEq] at hset
        obtain ⟨h1, h2, h3, h4, h5, h6⟩ := hset
        refine ⟨by linarith, by linarith, by linarith, by linarith⟩
  refine ⟨hrel, ?_⟩
  obtain ⟨r1, r2, r3, r4⟩ := hrel
  intro speed f t hframe
  unfold triangleFrame at hframe
  split_ifs at hframe <;>
    · rw [Option.some.injEq] at hframe
      subst hframe
      refine ⟨by dsimp; linarith, by dsimp; linarith,
        by dsimp; linarith, by dsimp; linarith⟩

/-- C10 witness: the concrete triangle run of the C1 witness (base 30,
height 40, moving right), checked at speed 50, frame 10. -/
theorem triangle_shape_invariant_witness :
    ((30 : ℚ) = 0 + 30 ∧ (0 : ℚ) = 0 ∧ (15 : ℚ) = 0 + 30 / 2
      ∧ (40 : ℚ) = 0 + 40)
    ∧ (((10 : ℚ), (0 : ℚ), (40 : ℚ), (0 : ℚ), (25 : ℚ), (40 : ℚ)) : Tri).2.2.1
          = (10 : ℚ) + 30 := by
  have h := triangle_shape_invariant "right" 30 40 1
    (fun a _ => a) (fun a _ => a) 0 0 30 0 15 40
    (by norm_num [setpositiontriangle, maxDistOver])
  exact ⟨h.1, (h.2 50 10 (10, 0, 40, 0, 25, 40)
    (by norm_num [triangleFrame, disp])).1⟩

/-- Helper: the optional-range check holds exactly when every supplied
value is in range. -/
theorem rangeOk_iff (o : Option ℤ) (lo hi : ℤ) :
    rangeOk o lo hi = true ↔ ∀ v ∈ o, lo ≤ v ∧ v ≤ hi := by
  cases o <;> simp [rangeOk]

/-- Helper: the optional-direction check holds exactly when any supplied
direction is among the choices. -/
theorem directionOk_iff (o : Option String) :
    directionOk o = true ↔ ∀ d ∈ o, d ∈ directionChoices := by
  cases o <;> simp [directionOk]

/-- C7 counterexample: the parser accepts `--direction bouncy`, a value
outside the five the spec documents, so the direction option does not
accept "exactly" `right|left|up|down|diagonal`. -/
theorem parser_accepts_bouncy :
    parserAccepts ⟨"circle", none, none, none, none, none, some "bouncy", none⟩
        = true
    ∧ "bouncy" ∉ specDirections := by
  decide

/-- C7 amended: parsing succeeds exactly when the shape is one of the three
choices, every supplied size or speed lies in its documented range
(radius 10-77, rectangle and triangle sizes 10-75, speed 20-100), and any
supplied direction is one of the six choices
`right|left|up|down|diagonal|bouncy` (the source also accepts `bouncy`);
this check runs at argument-parse time, before any run begins. -/
theorem parserAccepts_iff (c : CliInput) :
    parserAccepts c = true ↔
      c.shape ∈ shapeChoices
      ∧ (∀ v ∈ c.radius, 10 ≤ v ∧ v ≤ 77)
      ∧ (∀ v ∈ c.rectwidth, 10 ≤ v ∧ v ≤ 75)
      ∧ (∀ v ∈ c.rectheight, 10 ≤ v ∧ v ≤ 75)
      ∧ (∀ v ∈ c.base, 10 ≤ v ∧ v ≤ 75)
      ∧ (∀ v ∈ c.triheight, 10 ≤ v ∧ v ≤ 75)
      ∧ (∀ d ∈ c.direction, d ∈ directionChoices)
      ∧ (∀ v ∈ c.speed, 20 ≤ v ∧ v ≤ 100) := by
  simp only [parserAccepts, Bool.and_eq_true, decide_eq_true_eq,
    rangeOk_iff, directionOk_iff]
  tauto

/-- C2: `main` never copies a caller-supplied value into the run: locals
like `radius` are assigned only under the randomize flags, so whenever the
caller pins direction, a size, or speed, the iteration raises
(UnboundLocalError) instead of running with the supplied value. -/
theorem supplied_params_crash (args : Args) (r : Rand) (i : ℕ) :
    (args.shape = some "circle" →
      (args.direction ≠ none ∨ args.radius ≠ 0 ∨ args.speed ≠ 0) →
      runIteration args r i = .error ())
    ∧ (args.shape = some "triangle" →
      (args.direction ≠ none ∨ args.base ≠ 0 ∨ args.triheight ≠ 0
        ∨ args.speed ≠ 0) →
      runIteration args r i = .error ()) := by
  obtain ⟨sh, rad, rwd, rht, b, th, dir, sp⟩ := args
  constructor
  · rintro rfl (h | h | h) <;>
      simp only [runIteration] <;>
      cases dir <;> split_ifs <;> simp_all
  · rintro rfl (h | h | h | h) <;>
      simp only [runIteration] <;>
      cases dir <;> split_ifs <;> simp_all

/-- C2 witness: supplying `--radius 20` with shape `circle` (direction and
speed left to randomize) makes the iteration raise instead of using the
supplied radius. -/
theorem supplied_params_crash_witness :
    runIteration ⟨some "circle", 20, 0, 0, 0, 0, none, 0⟩
        ⟨"right", 20, 30, 40, 20, 20, 50, 1, "circle",
          fun a _ => a, fun a _ => a⟩ 0
      = .error () := by
  exact (supplied_params_crash _ _ 0).1 rfl (by right; left; decide)

/-- C9: a run whose shape is `rectangle` matches no branch of `main`
(`dataset.py` lines 443-446): the iteration completes silently, saving no
artifact, for every direction and every set of random draws. -/
theorem rectangle_run_saves_nothing (args : Args) (r : Rand) (i : ℕ)
    (hsh : args.shape = some "rectangle") :
    runIteration args r i = .ok [] := by
  simp [runIteration, hsh]

theorem charVal_digitChar : ∀ d < 10, charVal (Nat.digitChar d) = d := by
  decide

theorem chars2nat_concat (xs : List Char) (c : Char) :
    chars2nat (xs ++ [c]) = 10 * chars2nat xs + charVal c := by
  unfold chars2nat
  rw [List.foldl_append]
  rfl

theorem chars2nat_rev_digits (l : List ℕ) (hl : ∀ d ∈ l, d < 10) :
    chars2nat ((l.map Nat.digitChar).reverse) = Nat.ofDigits 10 l := by
  induction l with
  | nil => rfl
  | cons d rest ih =>
    have hd : d < 10 := hl d (List.mem_cons_self d rest)
    have hrest : ∀ x ∈ rest, x < 10 := fun x hx => hl x (List.mem_cons_of_mem d hx)
    rw [List.map_cons, List.reverse_cons, chars2nat_concat, ih hrest,
      charVal_digitChar d hd, Nat.ofDigits_cons]
    ring

theorem chars2nat_natChars (n : ℕ) : chars2nat (natChars n) = n := by
  unfold natChars
  split_ifs with h
  · subst h; rfl
  · rw [chars2nat_rev_digits _ (fun d hd => Nat.digits_lt_base (by norm_num) hd),
      Nat.ofDigits_digits]

theorem natChars_inj {m n : ℕ} (h : natChars m = natChars n) : m = n := by
  have h2 := congrArg chars2nat h
  rwa [chars2nat_natChars, chars2nat_natChars] at h2

theorem chars2nat_replicate_zero (k : ℕ) (l : List Char) :
    chars2nat (List.replicate k '0' ++ l) = chars2nat l := by
  induction k with
  | zero => rfl
  | succ k ih =>
    rw [List.replicate_succ, List.cons_append]
    exact ih

theorem chars2nat_pad3 (n : ℕ) : chars2nat (pad3 n) = n := by
  unfold pad3
  rw [chars2nat_replicate_zero, chars2nat_natChars]

theorem pad3_inj {m n : ℕ} (h : pad3 m = pad3 n) : m = n := by
  have h2 := congrArg chars2nat h
  rwa [chars2nat_pad3, chars2nat_pad3] at h2

theorem natChars_mem_digitList {n : ℕ} : ∀ c ∈ natChars n, c ∈ digitList := by
  intro c hc
  unfold natChars at hc
  split_ifs at hc with h
  · rw [List.mem_singleton] at hc
    subst hc; decide
  · rw [List.mem_reverse] at hc
    obtain ⟨d, hd, rfl⟩ := List.mem_map.mp hc
    have hd10 : d < 10 := Nat.digits_lt_base (by norm_num) hd
    exact (by decide : ∀ d < 10, Nat.digitChar d ∈ digitList) d hd10

theorem digit_not_special : ∀ c ∈ digitList, c ≠ '-' ∧ c ≠ 'h' := by decide

theorem natChars_no_dash (n : ℕ) : '-' ∉ natChars n := fun hm =>
  (digit_not_special '-' (natChars_mem_digitList '-' hm)).1 rfl

theorem natChars_no_h (n : ℕ) : 'h' ∉ natChars n := fun hm =>
  (digit_not_special 'h' (natChars_mem_digitList 'h' hm)).2 rfl

theorem pad3_no_dash (n : ℕ) : '-' ∉ pad3 n := by
  intro hm
  unfold pad3 at hm
  rcases List.mem_append.mp hm with hm | hm
  · exact absurd (List.eq_of_mem_replicate hm) (by decide)
  · exact natChars_no_dash n hm

theorem shapeCode_no_dash (s : ShapeParams) : '-' ∉ shapeCode s := by
  cases s <;> simp [shapeCode]

theorem sizeChars_no_dash (s : ShapeParams) : '-' ∉ sizeChars s := by
  cases s with
  | circle r =>
    intro hm
    simp only [sizeChars] at hm
    rcases List.mem_cons.mp hm with h | h
    · exact absurd h (by decide)
    · exact natChars_no_dash r h
  | triangle b hgt =>
    intro hm
    simp only [sizeChars] at hm
    rcases List.mem_cons.mp hm with h | h
    · exact absurd h (by decide)
    · rcases List.mem_append.mp h with h2 | h2
      · exact natChars_no_dash b h2
      · rcases List.mem_cons.mp h2 with h3 | h3
        · exact absurd h3 (by decide)
        · exact natChars_no_dash hgt h3

theorem append_sep_inj (sep : Char) :
    ∀ (a a' b b' : List Char), sep ∉ a → sep ∉ a' →
      a ++ sep :: b = a' ++ sep :: b' → a = a' ∧ b = b' := by
  intro a
  induction a with
  | nil =>
    intro a' b b' _ ha' h
    cases a' with
    | nil => simpa using h
    | cons c t =>
      simp only [List.nil_append, List.cons_append, List.cons.injEq] at h
      exact absurd (by rw [h.1]; exact List.mem_cons_self c t) ha'
  | cons c t ih =>
    intro a' b b' ha ha' h
    cases a' with
    | nil =>
      simp only [List.cons_append, List.nil_append, List.cons.injEq] at h
      exact absurd (by rw [← h.1]; exact List.mem_cons_self c t) ha
    | cons c' t' =>
      simp only [List.cons_append, List.cons.injEq] at h
      obtain ⟨rfl, h2⟩ := h
      have hta : sep ∉ t := fun hm => ha (List.mem_cons_of_mem _ hm)
      have hta' : sep ∉ t' := fun hm => ha' (List.mem_cons_of_mem _ hm)
      obtain ⟨e1, e2⟩ := ih t' b b' hta hta' h2
      exact ⟨by rw [e1], e2⟩

theorem dashJoin5 (a b c d e : List Char) :
    dashJoin [a, b, c, d, e]
      = a ++ '-' :: (b ++ '-' :: (c ++ '-' :: (d ++ '-' :: e))) := rfl

theorem gifFields_inj (i i' speed speed' : ℕ) (s s' : ShapeParams)
    (dc dc' : List Char) (hdc : '-' ∉ dc) (hdc' : '-' ∉ dc')
    (h : dashJoin [pad3 i, shapeCode s, sizeChars s, dc,
        natChars speed ++ ['.', 'g', 'i', 'f']]
      = dashJoin [pad3 i', shapeCode s', sizeChars s', dc',
        natChars speed' ++ ['.', 'g', 'i', 'f']]) :
    i = i' ∧ s = s' ∧ dc = dc' ∧ speed = speed' := by
  rw [dashJoin5, dashJoin5] at h
  obtain ⟨e1, h⟩ := append_sep_inj '-' _ _ _ _ (pad3_no_dash i) (pad3_no_dash i') h
  obtain ⟨e2, h⟩ := append_sep_inj '-' _ _ _ _
    (shapeCode_no_dash s) (shapeCode_no_dash s') h
  obtain ⟨e3, h⟩ := append_sep_inj '-' _ _ _ _
    (sizeChars_no_dash s) (sizeChars_no_dash s') h
  obtain ⟨e4, e5⟩ := append_sep_inj '-' _ _ _ _ hdc hdc' h
  refine ⟨pad3_inj e1, ?_, e4, ?_⟩
  · cases s with
    | circle r =>
      cases s' with
      | circle r' =>
        simp only [sizeChars, List.cons.injEq] at e3
        rw [natChars_inj e3.2]
      | triangle b' hgt' => simp [shapeCode] at e2
    | triangle b hgt =>
      cases s' with
      | circle r' => simp [shapeCode] at e2
      | triangle b' hgt' =>
        simp only [sizeChars, List.cons.injEq] at e3
        obtain ⟨eb, eh⟩ := append_sep_inj 'h' _ _ _ _
          (natChars_no_h b) (natChars_no_h b') e3.2
        rw [natChars_inj eb, natChars_inj eh]
  · have e6 := (List.append_inj' e5 rfl).1
    exact natChars_inj e6

/-- C8: the file-name encoding is injective: two runs over the animated
shapes and the five directions that produce the same
`(index)-(shape)-(sizes)-(direction)-(speed).gif` name have the same run
index, shape parameters, direction and speed, so the five fields are
uniquely decodable from the name. -/
theorem gifName_injective
    (i i' speed speed' : ℕ) (s s' : ShapeParams) (d d' : String)
    (hd : d ∈ specDirections) (hd' : d' ∈ specDirections)
    (h : gifName i s d speed = gifName i' s' d' speed') :
    i = i' ∧ s = s' ∧ d = d' ∧ speed = speed' := by
  simp only [specDirections, List.mem_cons, List.mem_singleton,
    List.not_mem_nil, or_false] at hd hd'
  rcases hd with rfl | rfl | rfl | rfl | rfl <;>
    rcases hd' with rfl | rfl | rfl | rfl | rfl <;>
    · simp [gifName, dirCode, String.ext_iff] at h
      obtain ⟨h1, h2, h3, h4⟩ :=
        gifFields_inj _ _ _ _ _ _ _ _ (by decide) (by decide) h
      first
        | exact ⟨h1, h2, rfl, h4⟩
        | exact absurd h3 (by decide)

/-- C8 witness: the injectivity theorem applied at a concrete pair of
identical circle runs. -/
theorem gifName_injective_witness :
    (1 : ℕ) = 1 ∧ ShapeParams.circle 20 = ShapeParams.circle 20
      ∧ "right" = "right" ∧ (50 : ℕ) = 50 :=
  gifName_injective 1 1 50 50 (.circle 20) (.circle 20) "right" "right"
    (by decide) (by decide) rfl

/-- C9 witness: a concrete rectangle run saves nothing. -/
theorem rectangle_run_saves_nothing_witness :
    runIteration ⟨some "rectangle", 0, 0, 0, 0, 0, none, 0⟩
        ⟨"right", 20, 30, 40, 20, 20, 50, 1, "circle",
          fun a _ => a, fun a _ => a⟩ 0
      = .ok [] := by
  exact rectangle_run_saves_nothing _ _ 0 rfl

end Dataset
